import Mathlib

/-!
Verification development for the QASM3 task-lifecycle service
(`app/routes.py`, `app/tasks.py`, `app/helpers.py`, `app/settings.py`,
`app/queue.py`).

The embedding models:
* Python values retrieved from the dramatiq result backend (`PyVal`);
* the Redis key-value store restricted to the single-key operations the
  service uses (`Store`, association list with `get`/`delete`);
* the status-query endpoint `task_status` from `app/routes.py`;
* the submission endpoint `submit_task` from `app/routes.py`, as the exact
  sequence of externally visible effects it performs (enqueue, marker write);
* the worker actor `qasm3_task` from `app/tasks.py` together with the
  result-store step that the dramatiq `Results` middleware (configured in
  `app/queue.py` with `store_results=True`) performs after the actor body
  returns;
* id generation: `new_task_id` (`uuid4().hex`, `app/helpers.py`) and the
  dramatiq message id (`str(uuid.uuid4())`, the canonical dashed rendering;
  this is the default `message_id` factory of `dramatiq.Message` used by
  `qasm3_task.message(...)` in `app/routes.py`; the dashed form is also the
  documented example response in `app/models.py`, task_id
  `53382f22-b232-45be-a95d-f278e182d46a`).

External collaborators that the claims do not depend on internally are
parameters: `json.loads` composed with UTF-8 decoding is an arbitrary
function `decode : List Nat → Option PyVal`; the qiskit QASM3
parse/dump round trip is an arbitrary `parse : String → Option String`;
the simulator run producing counts is an arbitrary
`execute : String → Nat → Option (List (String × Nat))`.
-/

/-- A Python value as it can come back from the dramatiq result backend:
`None`, bool, int, str, list, dict (string keys, as produced by JSON
decoding), or raw bytes (modelled as a list of byte values). -/
inductive PyVal where
  | pyNone : PyVal
  | pyBool (b : Bool) : PyVal
  | pyInt (n : Int) : PyVal
  | pyStr (s : String) : PyVal
  | pyList (xs : List PyVal) : PyVal
  | pyDict (kvs : List (String × PyVal)) : PyVal
  | pyBytes (bs : List Nat) : PyVal

/-- The Python check `isinstance(result, dict)` from `app/routes.py` line 93. -/
def PyVal.isDict : PyVal → Bool
  | .pyDict _ => true
  | _ => false

/-- The Python check `isinstance(result, (bytes, bytearray))` from
`app/routes.py` line 87. -/
def PyVal.isBytes : PyVal → Bool
  | .pyBytes _ => true
  | _ => false

/-- The canonical result shape that section 3 of the spec requires:
a mapping from string to non-negative integer. (Spec-side predicate,
used to state claim C6; the code does not check this.) -/
def PyVal.isCountsDict : PyVal → Bool
  | .pyDict kvs => kvs.all (fun kv => match kv.2 with
      | .pyInt n => decide (0 ≤ n)
      | _ => false)
  | _ => false

/-- The Redis store, restricted to the operations the service uses:
an association list from key to stored byte string. -/
def Store : Type := List (String × List Nat)

instance : DecidableEq Store := by
  unfold Store
  infer_instance

/-- Redis `GET key`: first binding for the key, if any (`redis_client.get`). -/
def storeGet (s : Store) (k : String) : Option (List Nat) :=
  (s.find? (fun p => p.1 == k)).map (fun p => p.2)

/-- Redis `DEL key`: remove every binding for the key (`redis_client.delete`).
Deleting an absent key is a no-op, not an error. -/
def storeDelete (s : Store) (k : String) : Store :=
  s.filter (fun p => p.1 != k)

/-- Redis `SET key value PX ttl` (`redis_client.set(..., px=...)`); the TTL is
recorded with the submission event trace, not in the store, since no claim
depends on real-time expiry. -/
def storeSet (s : Store) (k : String) (v : List Nat) : Store :=
  (k, v) :: storeDelete s k

/-- The marker key builder `_submitted_key` from `app/routes.py`:
the literal "task_submitted:" followed by the task id. -/
def submittedKey (taskId : String) : String :=
  "task_submitted:" ++ taskId

/-- Outcome of the non-blocking `message.get_result(..., block=False)` call in
`app/routes.py` line 85: a present value, the `ResultMissing` exception, the
`ResultTimeout` exception, or any other exception carrying `str(e)`. -/
inductive BackendOutcome where
  | present (v : PyVal) : BackendOutcome
  | resultMissing : BackendOutcome
  | resultTimeout : BackendOutcome
  | otherError (msg : String) : BackendOutcome

/-- The three-variant response body of `GET /tasks/{task_id}`
(`TaskStatusResponse` in `app/models.py`). -/
inductive StatusResponse where
  | completed (result : PyVal) : StatusResponse
  | pending (message : String) : StatusResponse
  | error (message : String) : StatusResponse

/-- Whether a status response is the `completed` variant. -/
def StatusResponse.isCompleted : StatusResponse → Bool
  | .completed _ => true
  | _ => false

/-- The normalization step of `app/routes.py` lines 87-92: raw bytes are
decoded as UTF-8 and parsed as JSON (the composite is the parameter
`decode`); any non-bytes value passes through unchanged. `none` is the
`except` branch returning the format-invalid error. -/
def decodeStep (decode : List Nat → Option PyVal) : PyVal → Option PyVal
  | .pyBytes bs => decode bs
  | v => some v

/-- The status-query endpoint `task_status` from `app/routes.py` lines 76-110,
as a function from the backend outcome and the current store to the response
and the updated store. On a present result: bytes are decoded (invalid JSON
yields the format-invalid error), non-dict values yield the format-invalid
error, and a dict is returned as `completed` after the existence marker is
deleted. On `ResultMissing` or `ResultTimeout`: `pending` if the marker is
present, else the not-found error. Any other exception yields
`error (str e)` with the store untouched. -/
def task_status (decode : List Nat → Option PyVal) (outcome : BackendOutcome)
    (store : Store) (taskId : String) : StatusResponse × Store :=
  match outcome with
  | .present r0 =>
    match decodeStep decode r0 with
    | none => (.error "Task result format invalid.", store)
    | some r =>
      if r.isDict then
        (.completed r, storeDelete store (submittedKey taskId))
      else
        (.error "Task result format invalid.", store)
  | .resultMissing =>
    if (storeGet store (submittedKey taskId)).isSome then
      (.pending "Task is still in progress.", store)
    else
      (.error "Task not found.", store)
  | .resultTimeout =>
    if (storeGet store (submittedKey taskId)).isSome then
      (.pending "Task is still in progress.", store)
    else
      (.error "Task not found.", store)
  | .otherError msg => (.error msg, store)

/-- The sixteen lowercase hexadecimal digit characters. -/
def hexChars : List Char :=
  ['0', '1', '2', '3'] ++ ['4', '5', '6', '7']
    ++ ['8', '9', 'a', 'b'] ++ ['c', 'd', 'e', 'f']

/-- One lowercase hexadecimal digit character for a digit value below 16
(values 16 and above never occur in the renderings below). -/
def hexDigit : Nat → Char
  | 0 => '0' | 1 => '1' | 2 => '2' | 3 => '3' | 4 => '4' | 5 => '5'
  | 6 => '6' | 7 => '7' | 8 => '8' | 9 => '9' | 10 => 'a' | 11 => 'b'
  | 12 => 'c' | 13 => 'd' | 14 => 'e' | 15 => 'f' | _ => '0'

/-- Little-endian fixed-width hexadecimal digit list of a natural number. -/
def toHexRevList : Nat → Nat → List Char
  | 0, _ => []
  | w + 1, n => hexDigit (n % 16) :: toHexRevList w (n / 16)

/-- Big-endian fixed-width (zero-padded) hexadecimal rendering. -/
def toHexFixed (w n : Nat) : List Char :=
  (toHexRevList w n).reverse

/-- The id generator `new_task_id` from `app/helpers.py`: `uuid4().hex`, i.e.
the 32-character lowercase-hexadecimal rendering of a random 128-bit value.
The randomness is the parameter `bits`. -/
def new_task_id (bits : Nat) : String :=
  String.mk (toHexFixed 32 (bits % 2 ^ 128))

/-- Insertion of the four dashes of the canonical 8-4-4-4-12 UUID rendering
into a 32-character hexadecimal digit list. -/
def uuidDashed (cs : List Char) : List Char :=
  cs.take 8 ++ '-' :: ((cs.drop 8).take 4 ++ '-' :: ((cs.drop 12).take 4
    ++ '-' :: ((cs.drop 16).take 4 ++ '-' :: cs.drop 20)))

/-- The dramatiq broker message id: `str(uuid.uuid4())`, the canonical dashed
36-character rendering of a random 128-bit value. This is the default
`message_id` of `dramatiq.Message`, produced by `qasm3_task.message(...)` in
`app/routes.py` line 59; `app/models.py` documents this dashed shape as the
example `task_id` response. The randomness is the parameter `bits`. -/
def uuidCanonical (bits : Nat) : String :=
  String.mk (uuidDashed (toHexFixed 32 (bits % 2 ^ 128)))

/-- The spec's task-id format (section 8 of the spec): exactly 32 characters,
all lowercase hexadecimal digits. -/
def isHex32Lower (s : String) : Bool :=
  s.length == 32 && s.data.all (fun c => decide (c ∈ hexChars))

/-- Python `str.strip()` (as used on `body.qc` in `app/routes.py`): remove
leading and trailing whitespace. -/
def pyStrip (s : String) : String :=
  String.mk (((s.data.dropWhile Char.isWhitespace).reverse.dropWhile
    Char.isWhitespace).reverse)

/-- The configuration values from `app/settings.py` that the lifecycle and
worker code read (environment-loaded, hence parameters of the model). -/
structure Settings where
  qcTaskTimeLimitMs : Nat
  qcTaskMaxRetries : Nat
  qcTaskDefaultShots : Nat
deriving DecidableEq, Repr

/-- The dramatiq message built at `app/routes.py` line 59: the broker-assigned
message id together with the keyword arguments `task_id` and `qasm3_str`
carried to the worker. -/
structure QMessage where
  messageId : String
  taskIdArg : String
  qasmArg : String
deriving DecidableEq, Repr

/-- Externally visible side effects of `submit_task`, in program order:
`broker.enqueue(msg)` and `redis_client.set(key, b"1", px=ttl_ms)`. -/
inductive SubmitEvent where
  | enqueue (msg : QMessage) : SubmitEvent
  | setMarker (key : String) (value : List Nat) (pxMs : Nat) : SubmitEvent
deriving DecidableEq, Repr

/-- The two `HTTPException` rejections of `submit_task`. -/
inductive SubmitError where
  | emptyQasm : SubmitError
  | invalidQasm : SubmitError
deriving DecidableEq, Repr

/-- HTTP status code of a submit rejection (both are client errors, 400). -/
def SubmitError.statusCode : SubmitError → Nat
  | .emptyQasm => 400
  | .invalidQasm => 400

/-- Detail string of a submit rejection. -/
def SubmitError.detail : SubmitError → String
  | .emptyQasm => "QASM3 code cannot be empty"
  | .invalidQasm => "QASM3 code is not valid"

/-- A successful submission: the effect trace and the response body fields. -/
structure SubmitOk where
  events : List SubmitEvent
  taskIdResponse : String
  messageResponse : String
deriving DecidableEq, Repr

/-- The submission endpoint `submit_task` from `app/routes.py` lines 46-66.
`parse` is the composite `qiskit.qasm3.dumps(qiskit.qasm3.loads(..))`
(an exception in `loads` is `none`); `genBits` feeds `new_task_id` and
`msgBits` feeds the broker message id. The code generates `task_id`, rejects
empty and unparsable QASM3 with a 400 before any effect, then enqueues the
message carrying `task_id=task_id`, then writes the existence marker under
the key built from `msg.message_id` with TTL
`QC_TASK_TIME_LIMIT_MS * QC_TASK_MAX_RETRIES`, and answers with
`msg.message_id` as the task id. -/
def submit_task (cfg : Settings) (parse : String → Option String)
    (genBits msgBits : Nat) (qc : String) : Except SubmitError SubmitOk :=
  if (pyStrip qc).data.isEmpty then
    .error .emptyQasm
  else
    match parse (pyStrip qc) with
    | none => .error .invalidQasm
    | some dumped =>
      .ok { events := [.enqueue { messageId := uuidCanonical msgBits,
                                  taskIdArg := new_task_id genBits,
                                  qasmArg := dumped },
                       .setMarker (submittedKey (uuidCanonical msgBits)) [49]
                         (cfg.qcTaskTimeLimitMs * cfg.qcTaskMaxRetries)],
            taskIdResponse := uuidCanonical msgBits,
            messageResponse := "Task submitted successfully." }

/-- Effect trace of a submission attempt; a rejected submission performed no
externally visible effect (no marker write, nothing enqueued). -/
def submitEffects : Except SubmitError SubmitOk → List SubmitEvent
  | .error _ => []
  | .ok r => r.events

/-- Whether a submission attempt was accepted. -/
def submitAccepted : Except SubmitError SubmitOk → Bool
  | .error _ => false
  | .ok _ => true

/-- Whether an event is the `broker.enqueue` call. -/
def SubmitEvent.isEnqueue : SubmitEvent → Bool
  | .enqueue _ => true
  | _ => false

/-- Whether an event is the marker `redis_client.set` call. -/
def SubmitEvent.isSetMarker : SubmitEvent → Bool
  | .setMarker _ _ _ => true
  | _ => false

/-- Claim C1's ordering property over a submit effect trace: some marker
write occurs strictly before the first enqueue. -/
def markerBeforeEnqueue (es : List SubmitEvent) : Bool :=
  match es.findIdx? SubmitEvent.isSetMarker, es.findIdx? SubmitEvent.isEnqueue with
  | some i, some j => decide (i < j)
  | _, _ => false

/-- The marker writes (key, value, TTL in ms) of a submit effect trace. -/
def markerEvents (es : List SubmitEvent) : List (String × List Nat × Nat) :=
  es.filterMap (fun e => match e with
    | .setMarker k v px => some (k, v, px)
    | _ => none)

/-- The enqueued messages of a submit effect trace. -/
def enqueuedMessages (es : List SubmitEvent) : List QMessage :=
  es.filterMap (fun e => match e with
    | .enqueue m => some m
    | _ => none)

/-- Externally visible side effects of processing one message in the worker:
the actor body's `redis_client.delete` and the result-backend write performed
by the dramatiq `Results` middleware. -/
inductive WorkerEvent where
  | deleteKey (key : String) : WorkerEvent
  | writeResult (messageId : String) (counts : List (String × Nat)) : WorkerEvent
deriving DecidableEq, Repr

/-- Outcome of the actor body: normal return with its effect trace and counts,
or a re-raised exception (no effects besides logging). -/
inductive WorkerOutcome where
  | ok (events : List WorkerEvent) (counts : List (String × Nat)) : WorkerOutcome
  | raised : WorkerOutcome
deriving DecidableEq, Repr

/-- The actor body `qasm3_task` from `app/tasks.py` lines 28-51. `execute`
is the composite `qasm3.loads` / `AerSimulator().run` / `get_counts`
(any exception is `none`). On success the body deletes the key
`task_submitted:` + its `task_id` argument and returns the counts; on any
exception it re-raises without deleting anything. -/
def qasm3_task (execute : String → Nat → Option (List (String × Nat)))
    (task_id qasm3_str : String) (shots : Nat) : WorkerOutcome :=
  match execute qasm3_str shots with
  | none => .raised
  | some counts => .ok [.deleteKey ("task_submitted:" ++ task_id)] counts

/-- Worker-side processing of one enqueued message: the actor body runs with
the message's `task_id` and `qasm3_str` keyword arguments; when the body
returns normally, the `Results` middleware (`store_results=True` in the
actor options of `app/tasks.py` and the `Results` middleware added in
`app/queue.py`) then stores the returned counts in the result backend under
the message id. On an exception no result is written (queue retry policy
applies). -/
def processMessage (execute : String → Nat → Option (List (String × Nat)))
    (msg : QMessage) (shots : Nat) : List WorkerEvent :=
  match qasm3_task execute msg.taskIdArg msg.qasmArg shots with
  | .raised => []
  | .ok evs counts => evs ++ [.writeResult msg.messageId counts]

/-- Whether a worker event is the marker delete. -/
def WorkerEvent.isDeleteKey : WorkerEvent → Bool
  | .deleteKey _ => true
  | _ => false

/-- Whether a worker event is the result-backend write. -/
def WorkerEvent.isWriteResult : WorkerEvent → Bool
  | .writeResult _ _ => true
  | _ => false

/-- Claim C2's ordering property over a worker effect trace: some result
write occurs strictly before the first marker delete. -/
def writeBeforeDelete (es : List WorkerEvent) : Bool :=
  match es.findIdx? WorkerEvent.isWriteResult, es.findIdx? WorkerEvent.isDeleteKey with
  | some i, some j => decide (i < j)
  | _, _ => false

/-- The keys deleted in a worker effect trace. -/
def workerDeleteKeys (es : List WorkerEvent) : List String :=
  es.filterMap (fun e => match e with
    | .deleteKey k => some k
    | _ => none)

/-- The dramatiq actor declaration options of `qasm3_task` in `app/tasks.py`
lines 21-27: `time_limit=QC_TASK_TIME_LIMIT_MS`, `actor_name="execute_qasm3"`,
`max_retries=QC_TASK_MAX_RETRIES`, `store_results=True`. -/
structure ActorOptions where
  timeLimitMs : Nat
  actorName : String
  maxRetries : Nat
  storeResults : Bool
deriving DecidableEq, Repr

/-- The concrete actor options of `qasm3_task`, read from the same settings
the submission endpoint reads. -/
def qasm3_actorOptions (cfg : Settings) : ActorOptions :=
  { timeLimitMs := cfg.qcTaskTimeLimitMs
    actorName := "execute_qasm3"
    maxRetries := cfg.qcTaskMaxRetries
    storeResults := true }

/-- A configuration with the defaults of `app/settings.py`
(`QC_TASK_TIME_LIMIT_MS = 300000`, `QC_TASK_MAX_RETRIES = 3`,
`QC_TASK_DEFAULT_SHOTS = 1024`). -/
def cfg0 : Settings :=
  { qcTaskTimeLimitMs := 300000, qcTaskMaxRetries := 3,
    qcTaskDefaultShots := 1024 }

/-- A parse collaborator that accepts every program and dumps it unchanged
(used for concrete runs). -/
def parseId : String → Option String := fun s => some s

/-- A concrete valid submission body. -/
def qc0 : String := "OPENQASM 3.0;"

/-- A decode collaborator used in concrete runs where no bytes occur. -/
def decode0 : List Nat → Option PyVal := fun _ => none

/-- A retrieved result value that is a dict but not a mapping to non-negative
integers. -/
def badCounts : PyVal := .pyDict [("x", .pyInt (-1))]

/-- An execute collaborator that always succeeds with fixed counts. -/
def execute0 : String → Nat → Option (List (String × Nat)) :=
  fun _ _ => some [("00", 5), ("11", 3)]

/-- The message enqueued by the concrete submission
`submit_task cfg0 parseId 5 7 qc0`. -/
def msg0 : QMessage :=
  { messageId := uuidCanonical 7, taskIdArg := new_task_id 5, qasmArg := qc0 }

/-- The successful outcome of the concrete submission
`submit_task cfg0 parseId 0 0 qc0`. -/
def submitOk0 : SubmitOk :=
  { events := [.enqueue { messageId := uuidCanonical 0,
                          taskIdArg := new_task_id 0, qasmArg := qc0 },
               .setMarker (submittedKey (uuidCanonical 0)) [49] (300000 * 3)],
    taskIdResponse := uuidCanonical 0,
    messageResponse := "Task submitted successfully." }

/-- The successful outcome of the concrete submission
`submit_task cfg0 parseId 5 7 qc0` (its enqueued message is `msg0`). -/
def submitOk1 : SubmitOk :=
  { events := [.enqueue msg0,
               .setMarker (submittedKey (uuidCanonical 7)) [49] (300000 * 3)],
    taskIdResponse := uuidCanonical 7,
    messageResponse := "Task submitted successfully." }

theorem storeGet_storeDelete_self (s : Store) (k : String) :
    storeGet (storeDelete s k) k = none := by
  induction s with
  | nil => rfl
  | cons p t ih =>
    by_cases h : p.1 = k
    · have hb : (p.1 != k) = false := by simp [bne, h]
      simp only [storeDelete, List.filter_cons, hb] at ih ⊢
      simpa using ih
    · have hb : (p.1 != k) = true := by simp [bne, h]
      have hbeq : (p.1 == k) = false := beq_eq_false_iff_ne.mpr h
      simp only [storeDelete, List.filter_cons, hb, if_pos] at ih ⊢
      simp only [storeGet, List.find?_cons, hbeq] at ih ⊢
      exact ih

theorem storeDelete_absent (s : Store) (k : String)
    (h : storeGet s k = none) : storeDelete s k = s := by
  induction s with
  | nil => rfl
  | cons p t ih =>
    by_cases hp : p.1 = k
    · exfalso
      have : (p.1 == k) = true := beq_iff_eq.mpr hp
      simp [storeGet, List.find?_cons, this] at h
    · have hbeq : (p.1 == k) = false := beq_eq_false_iff_ne.mpr hp
      have ht : storeGet t k = none := by
        simpa [storeGet, List.find?_cons, hbeq] using h
      have hb : (p.1 != k) = true := by simp [bne, hbeq]
      simp only [storeDelete, List.filter_cons, hb, if_pos]
      exact congrArg (p :: ·) (ih ht)

theorem storeDelete_idem (s : Store) (k : String) :
    storeDelete (storeDelete s k) k = storeDelete s k :=
  storeDelete_absent _ _ (storeGet_storeDelete_self s k)

theorem hexDigit_ne_dash (d : Nat) : hexDigit d ≠ '-' := by
  unfold hexDigit
  split <;> decide

theorem hexDigit_mem (d : Nat) : hexDigit d ∈ hexChars := by
  unfold hexDigit
  split <;> decide

theorem hexDigit_inj_aux : ∀ a ∈ List.range 16, ∀ b ∈ List.range 16,
    hexDigit a = hexDigit b → a = b := by decide

theorem hexDigit_inj {a b : Nat} (ha : a < 16) (hb : b < 16)
    (h : hexDigit a = hexDigit b) : a = b :=
  hexDigit_inj_aux a (List.mem_range.mpr ha) b (List.mem_range.mpr hb) h

theorem toHexRevList_length (w : Nat) : ∀ n, (toHexRevList w n).length = w := by
  induction w with
  | zero => intro n; rfl
  | succ w ih => intro n; simp [toHexRevList, ih]

theorem toHexRevList_mem (w : Nat) : ∀ n, ∀ c ∈ toHexRevList w n, c ∈ hexChars := by
  induction w with
  | zero => intro n c hc; cases hc
  | succ w ih =>
    intro n c hc
    simp only [toHexRevList, List.mem_cons] at hc
    rcases hc with rfl | hc
    · exact hexDigit_mem _
    · exact ih _ c hc

theorem mem_hexChars_ne_dash : ∀ c ∈ hexChars, c ≠ '-' := by decide

theorem toHexRevList_inj (w : Nat) : ∀ {n m : Nat}, n < 16 ^ w → m < 16 ^ w →
    toHexRevList w n = toHexRevList w m → n = m := by
  induction w with
  | zero =>
    intro n m hn hm _
    simp [pow_zero, Nat.lt_one_iff] at hn hm
    omega
  | succ w ih =>
    intro n m hn hm h
    simp only [toHexRevList, List.cons.injEq] at h
    have h1 : n % 16 = m % 16 :=
      hexDigit_inj (Nat.mod_lt n (by norm_num)) (Nat.mod_lt m (by norm_num)) h.1
    have hps : (16 : Nat) ^ (w + 1) = 16 ^ w * 16 := pow_succ 16 w
    have hn2 : n / 16 < 16 ^ w :=
      (Nat.div_lt_iff_lt_mul (by norm_num)).mpr (by omega)
    have hm2 : m / 16 < 16 ^ w :=
      (Nat.div_lt_iff_lt_mul (by norm_num)).mpr (by omega)
    have h2 : n / 16 = m / 16 := ih hn2 hm2 h.2
    have hdn := Nat.div_add_mod n 16
    have hdm := Nat.div_add_mod m 16
    omega

theorem toHexFixed_length (w n : Nat) : (toHexFixed w n).length = w := by
  simp [toHexFixed, toHexRevList_length]

theorem toHexFixed_mem (w n : Nat) : ∀ c ∈ toHexFixed w n, c ∈ hexChars := by
  intro c hc
  exact toHexRevList_mem w n c (List.mem_reverse.mp hc)

theorem toHexFixed_inj {w n m : Nat} (hn : n < 16 ^ w) (hm : m < 16 ^ w)
    (h : toHexFixed w n = toHexFixed w m) : n = m := by
  apply toHexRevList_inj w hn hm
  have := congrArg List.reverse h
  simpa [toHexFixed] using this

theorem take_drop_recompose (cs : List Char) :
    cs.take 8 ++ ((cs.drop 8).take 4 ++ ((cs.drop 12).take 4
      ++ ((cs.drop 16).take 4 ++ cs.drop 20))) = cs := by
  have h20 : (cs.drop 16).drop 4 = cs.drop 20 := by
    rw [List.drop_drop]
  have h16 : (cs.drop 12).drop 4 = cs.drop 16 := by
    rw [List.drop_drop]
  have h12 : (cs.drop 8).drop 4 = cs.drop 12 := by
    rw [List.drop_drop]
  rw [← h20, List.take_append_drop, ← h16, List.take_append_drop,
    ← h12, List.take_append_drop, List.take_append_drop]

theorem uuidDashed_filter (cs : List Char) (h : ∀ c ∈ cs, c ≠ '-') :
    (uuidDashed cs).filter (fun c => c != '-') = cs := by
  have hf : ∀ ds : List Char, ds ⊆ cs → ds.filter (fun c => c != '-') = ds := by
    intro ds hds
    apply List.filter_eq_self.mpr
    intro a ha
    exact bne_iff_ne.mpr (h a (hds ha))
  have hdash : (('-' : Char) != '-') = false := by decide
  unfold uuidDashed
  simp only [List.filter_append, List.filter_cons, hdash, Bool.false_eq_true,
    if_false]
  rw [hf (cs.take 8) (List.take_subset 8 cs),
    hf ((cs.drop 8).take 4) (List.Subset.trans (List.take_subset _ _) (List.drop_subset _ _)),
    hf ((cs.drop 12).take 4) (List.Subset.trans (List.take_subset _ _) (List.drop_subset _ _)),
    hf ((cs.drop 16).take 4) (List.Subset.trans (List.take_subset _ _) (List.drop_subset _ _)),
    hf (cs.drop 20) (List.drop_subset _ _)]
  exact take_drop_recompose cs

theorem pow16_32_eq : (16 : Nat) ^ 32 = 2 ^ 128 := by norm_num

theorem uuidCanonical_inj {a b : Nat} (ha : a < 2 ^ 128) (hb : b < 2 ^ 128)
    (h : uuidCanonical a = uuidCanonical b) : a = b := by
  have hdata : uuidDashed (toHexFixed 32 (a % 2 ^ 128))
      = uuidDashed (toHexFixed 32 (b % 2 ^ 128)) := congrArg String.data h
  have hna : ∀ c ∈ toHexFixed 32 (a % 2 ^ 128), c ≠ '-' := by
    intro c hc
    exact mem_hexChars_ne_dash c (toHexFixed_mem _ _ c hc)
  have hnb : ∀ c ∈ toHexFixed 32 (b % 2 ^ 128), c ≠ '-' := by
    intro c hc
    exact mem_hexChars_ne_dash c (toHexFixed_mem _ _ c hc)
  have hcs : toHexFixed 32 (a % 2 ^ 128) = toHexFixed 32 (b % 2 ^ 128) := by
    rw [← uuidDashed_filter _ hna, ← uuidDashed_filter _ hnb, hdata]
  have hma : a % 2 ^ 128 < 16 ^ 32 := by
    rw [pow16_32_eq]
    exact Nat.mod_lt a (by positivity)
  have hmb : b % 2 ^ 128 < 16 ^ 32 := by
    rw [pow16_32_eq]
    exact Nat.mod_lt b (by positivity)
  have := toHexFixed_inj hma hmb hcs
  rwa [Nat.mod_eq_of_lt ha, Nat.mod_eq_of_lt hb] at this

theorem new_task_id_length (bits : Nat) : (new_task_id bits).length = 32 := by
  have : (new_task_id bits).length = (toHexFixed 32 (bits % 2 ^ 128)).length := rfl
  rw [this, toHexFixed_length]

theorem uuidDashed_length (cs : List Char) (h : cs.length = 32) :
    (uuidDashed cs).length = 36 := by
  simp only [uuidDashed, List.length_append, List.length_cons,
    List.length_take, List.length_drop, h]
  omega

theorem uuidCanonical_length (bits : Nat) : (uuidCanonical bits).length = 36 := by
  have : (uuidCanonical bits).length
      = (uuidDashed (toHexFixed 32 (bits % 2 ^ 128))).length := rfl
  rw [this, uuidDashed_length _ (toHexFixed_length 32 _)]

theorem isHex32Lower_new_task_id (bits : Nat) :
    isHex32Lower (new_task_id bits) = true := by
  unfold isHex32Lower
  rw [Bool.and_eq_true]
  constructor
  · exact beq_iff_eq.mpr (new_task_id_length bits)
  · apply List.all_eq_true.mpr
    intro c hc
    apply decide_eq_true
    exact toHexFixed_mem 32 (bits % 2 ^ 128) c hc

theorem new_task_id_ne_uuidCanonical (a b : Nat) :
    new_task_id a ≠ uuidCanonical b := by
  intro h
  have h1 := new_task_id_length a
  have h2 := uuidCanonical_length b
  rw [h] at h1
  omega

theorem submit_task_ok_shape {cfg : Settings} {parse : String → Option String}
    {genBits msgBits : Nat} {qc : String} {r : SubmitOk}
    (h : submit_task cfg parse genBits msgBits qc = .ok r) :
    ∃ dumped, parse (pyStrip qc) = some dumped ∧
      r = { events := [.enqueue { messageId := uuidCanonical msgBits,
                                  taskIdArg := new_task_id genBits,
                                  qasmArg := dumped },
                       .setMarker (submittedKey (uuidCanonical msgBits)) [49]
                         (cfg.qcTaskTimeLimitMs * cfg.qcTaskMaxRetries)],
            taskIdResponse := uuidCanonical msgBits,
            messageResponse := "Task submitted successfully." } := by
  unfold submit_task at h
  by_cases he : (pyStrip qc).data.isEmpty
  · rw [if_pos he] at h
    cases h
  · rw [if_neg he] at h
    cases hp : parse (pyStrip qc) with
    | none =>
      rw [hp] at h
      cases h
    | some d =>
      rw [hp] at h
      exact ⟨d, rfl, (Except.ok.inj h).symm⟩

theorem qasm3_task_ok_shape {execute : String → Nat → Option (List (String × Nat))}
    {task_id qasm3_str : String} {shots : Nat} {evs : List WorkerEvent}
    {counts : List (String × Nat)}
    (h : qasm3_task execute task_id qasm3_str shots = .ok evs counts) :
    execute qasm3_str shots = some counts ∧
      evs = [.deleteKey ("task_submitted:" ++ task_id)] := by
  unfold qasm3_task at h
  cases hx : execute qasm3_str shots with
  | none =>
    rw [hx] at h
    cases h
  | some c =>
    rw [hx] at h
    injection h with h1 h2
    exact ⟨congrArg some h2, h1.symm⟩

/-- Claim C1, counterexample: in the concrete accepted submission
`submit_task cfg0 parseId 0 0 qc0`, the existence marker is NOT written
before the unit of work is enqueued — the effect trace enqueues first and
writes the marker second (`app/routes.py` lines 60 and 65). -/
theorem c1_counterexample :
    submit_task cfg0 parseId 0 0 qc0 = .ok submitOk0 ∧
    markerBeforeEnqueue submitOk0.events = false :=
  ⟨rfl, rfl⟩

/-- Claim C1 (amended): for every accepted submission the existence marker is
written synchronously during submission — in the same effect trace, before
the response is returned — but only AFTER the unit of work is enqueued: the
trace is exactly the enqueue (index 0) followed by the marker write
(index 1), so the marker never precedes the enqueue. -/
theorem c1_marker_after_enqueue (cfg : Settings)
    (parse : String → Option String) (genBits msgBits : Nat) (qc : String)
    (r : SubmitOk) (h : submit_task cfg parse genBits msgBits qc = .ok r) :
    r.events.findIdx? SubmitEvent.isEnqueue = some 0 ∧
    r.events.findIdx? SubmitEvent.isSetMarker = some 1 ∧
    markerBeforeEnqueue r.events = false := by
  obtain ⟨dumped, hp, rfl⟩ := submit_task_ok_shape h
  exact ⟨rfl, rfl, rfl⟩

/-- Claim C1 witness: the amended ordering at a concrete accepted
submission. -/
theorem c1_marker_after_enqueue_witness :
    submitOk0.events.findIdx? SubmitEvent.isEnqueue = some 0 ∧
    submitOk0.events.findIdx? SubmitEvent.isSetMarker = some 1 ∧
    markerBeforeEnqueue submitOk0.events = false :=
  c1_marker_after_enqueue cfg0 parseId 0 0 qc0 submitOk0 rfl

/-- Claim C2 (code bug): at the concrete submission
`submit_task cfg0 parseId 5 7 qc0` followed by a successful worker run of
its enqueued message `msg0`, the worker deletes the key built from its
`task_id` argument (the generated 32-hex id), which is NOT the marker key
created by submit (keyed by the broker message id), and this delete happens
before the result write that the `Results` middleware performs after the
actor body returns — the result-write does not happen before the
marker-delete, and the deleted key is not the submit marker key. -/
theorem c2_worker_delete_order_and_key :
    submit_task cfg0 parseId 5 7 qc0 = .ok submitOk1 ∧
    processMessage execute0 msg0 8 =
      [.deleteKey (submittedKey (new_task_id 5)),
       .writeResult (uuidCanonical 7) [("00", 5), ("11", 3)]] ∧
    submittedKey (new_task_id 5) ≠ submittedKey (uuidCanonical 7) ∧
    writeBeforeDelete (processMessage execute0 msg0 8) = false :=
  ⟨rfl, rfl, by decide, rfl⟩

/-- Claim C3, counterexample: the concrete accepted submission
`submit_task cfg0 parseId 0 0 qc0` returns the broker message id, a
36-character dashed UUID string, which is not a 32-character
lowercase-hexadecimal string. -/
theorem c3_counterexample :
    submit_task cfg0 parseId 0 0 qc0 = .ok submitOk0 ∧
    isHex32Lower submitOk0.taskIdResponse = false ∧
    submitOk0.taskIdResponse.length = 36 :=
  ⟨rfl, by decide, by decide⟩

/-- Claim C3 (amended): for every accepted submission, the returned task id
is the broker message id — the canonical dashed rendering of a
cryptographically random 128-bit UUID, 36 characters long, not 32-character
hex; the separately generated `new_task_id` value is a 32-character
lowercase-hexadecimal string; and submissions whose underlying random
128-bit message-id draws are pairwise distinct produce pairwise distinct
returned task ids (in particular 200 consecutive submissions with distinct
draws produce 200 distinct ids). -/
theorem c3_submit_id_format_and_distinct :
    (∀ (cfg : Settings) (parse : String → Option String)
        (genBits msgBits : Nat) (qc : String) (r : SubmitOk),
      submit_task cfg parse genBits msgBits qc = .ok r →
        r.taskIdResponse = uuidCanonical msgBits ∧
        r.taskIdResponse.length = 36 ∧
        isHex32Lower (new_task_id genBits) = true) ∧
    (∀ bs : List Nat, (∀ b ∈ bs, b < 2 ^ 128) → bs.Pairwise (· ≠ ·) →
      (bs.map uuidCanonical).Pairwise (· ≠ ·)) := by
  constructor
  · intro cfg parse genBits msgBits qc r h
    obtain ⟨dumped, hp, rfl⟩ := submit_task_ok_shape h
    exact ⟨rfl, uuidCanonical_length msgBits, isHex32Lower_new_task_id genBits⟩
  · intro bs hb hw
    rw [List.pairwise_map]
    apply hw.imp_of_mem
    intro a b ha hb' hne hEq
    exact hne (uuidCanonical_inj (hb a ha) (hb b hb') hEq)

/-- Claim C3 witness: the generated id format at a concrete draw, and 200
distinct draws giving 200 pairwise distinct broker message ids. -/
theorem c3_submit_id_format_and_distinct_witness :
    isHex32Lower (new_task_id 5) = true ∧
    ((List.range 200).map uuidCanonical).Pairwise (· ≠ ·) :=
  ⟨(c3_submit_id_format_and_distinct.1 cfg0 parseId 5 7 qc0 submitOk1 rfl).2.2,
   c3_submit_id_format_and_distinct.2 (List.range 200)
     (fun b hb => lt_of_lt_of_le (List.mem_range.mp hb) (by norm_num))
     ((List.pairwise_lt_range 200).imp Nat.ne_of_lt)⟩

/-- Claim C4: when the result backend reports result-not-yet-available
(`ResultMissing`) or result-retrieval-timed-out (`ResultTimeout`), the query
returns `pending` exactly when the existence marker for the id is present
and the not-found error when it is absent; the two backend outcomes produce
identical responses and store states; and a task id never submitted (empty
store) yields the not-found error. -/
theorem c4_missing_timeout_dispatch (decode : List Nat → Option PyVal)
    (store : Store) (tid : String) :
    task_status decode .resultMissing store tid
      = task_status decode .resultTimeout store tid ∧
    ((storeGet store (submittedKey tid)).isSome = true →
      task_status decode .resultMissing store tid
        = (.pending "Task is still in progress.", store)) ∧
    (storeGet store (submittedKey tid) = none →
      task_status decode .resultMissing store tid
        = (.error "Task not found.", store)) ∧
    task_status decode .resultMissing ([] : Store) tid
      = (.error "Task not found.", ([] : Store)) := by
  refine ⟨rfl, ?_, ?_, rfl⟩
  · intro h
    simp [task_status, h]
  · intro h
    simp [task_status, h]

/-- Claim C4 witness: both marker-present (pending) and marker-absent
(not found) branches at concrete stores. -/
theorem c4_missing_timeout_dispatch_witness :
    task_status decode0 .resultMissing
        (storeSet [] (submittedKey "t") [49]) "t"
      = (.pending "Task is still in progress.",
         storeSet [] (submittedKey "t") [49]) ∧
    task_status decode0 .resultMissing ([] : Store) "t"
      = (.error "Task not found.", ([] : Store)) :=
  ⟨(c4_missing_timeout_dispatch decode0
      (storeSet [] (submittedKey "t") [49]) "t").2.1 rfl,
   (c4_missing_timeout_dispatch decode0 ([] : Store) "t").2.2.1 rfl⟩

/-- Claim C5: for every task whose retrieved result normalizes to a dict,
the first query returns `completed` and deletes the existence marker
(deletion of an already-absent key is a no-op); the marker key is absent
from the store afterwards; and a repeated query for the same task id (the
result backend retains the value) returns the identical `completed` response
and leaves the store unchanged. -/
theorem c5_query_idempotent (decode : List Nat → Option PyVal) (store : Store)
    (tid : String) (r d : PyVal) (hd : decodeStep decode r = some d)
    (hdict : d.isDict = true) :
    task_status decode (.present r) store tid
      = (.completed d, storeDelete store (submittedKey tid)) ∧
    storeGet (storeDelete store (submittedKey tid)) (submittedKey tid)
      = none ∧
    task_status decode (.present r) (storeDelete store (submittedKey tid)) tid
      = (.completed d, storeDelete store (submittedKey tid)) := by
  refine ⟨?_, storeGet_storeDelete_self store (submittedKey tid), ?_⟩
  · simp [task_status, hd, hdict]
  · simp [task_status, hd, hdict, storeDelete_idem]

/-- Claim C5 witness: a concrete completed task queried twice returns the
identical completed response, and the marker key is gone after the first
query. -/
theorem c5_query_idempotent_witness :
    task_status decode0 (.present (.pyDict []))
        (storeSet [] (submittedKey "t") [49]) "t"
      = (.completed (.pyDict []),
         storeDelete (storeSet [] (submittedKey "t") [49])
           (submittedKey "t")) ∧
    storeGet (storeDelete (storeSet [] (submittedKey "t") [49])
        (submittedKey "t")) (submittedKey "t") = none ∧
    task_status decode0 (.present (.pyDict []))
        (storeDelete (storeSet [] (submittedKey "t") [49])
          (submittedKey "t")) "t"
      = (.completed (.pyDict []),
         storeDelete (storeSet [] (submittedKey "t") [49])
           (submittedKey "t")) :=
  c5_query_idempotent decode0 (storeSet [] (submittedKey "t") [49]) "t"
    (.pyDict []) (.pyDict []) rfl rfl

/-- Claim C6, counterexample: a retrieved dict whose value is a negative
integer is not a mapping from string to non-negative integer, yet the query
returns it as `completed` — the code only checks `isinstance(result, dict)`
(`app/routes.py` line 93), never the value shapes. -/
theorem c6_counterexample :
    (task_status decode0 (.present badCounts) ([] : Store) "t").1
      = .completed badCounts ∧
    PyVal.isCountsDict badCounts = false :=
  ⟨rfl, rfl⟩

/-- Claim C6 (amended): the query returns `completed` exactly when the
retrieved value normalizes to a dict (raw bytes are decoded and parsed
first); the entries of the dict are not checked, so a mapping with values
that are not non-negative integers is still returned as `completed`; any
value of another shape — a list, scalar, or undecodable bytes — yields the
format-invalid error and never `completed`. -/
theorem c6_completed_iff_dict (decode : List Nat → Option PyVal) (r : PyVal)
    (store : Store) (tid : String) :
    ((task_status decode (.present r) store tid).1.isCompleted = true ↔
      ∃ d, decodeStep decode r = some d ∧ d.isDict = true) ∧
    (decodeStep decode r = none →
      (task_status decode (.present r) store tid).1
        = .error "Task result format invalid.") ∧
    (∀ d, decodeStep decode r = some d → d.isDict = false →
      (task_status decode (.present r) store tid).1
        = .error "Task result format invalid.") := by
  refine ⟨?_, ?_, ?_⟩
  · cases hd : decodeStep decode r with
    | none => simp [task_status, hd, StatusResponse.isCompleted]
    | some d =>
      cases hdict : d.isDict with
      | false => simp [task_status, hd, hdict, StatusResponse.isCompleted]
      | true => simp [task_status, hd, hdict, StatusResponse.isCompleted]
  · intro hd
    simp [task_status, hd]
  · intro d hd hdict
    simp [task_status, hd, hdict]

/-- Claim C6 witness: a list-shaped result yields the format-invalid error,
and a dict-shaped result is reported completed. -/
theorem c6_completed_iff_dict_witness :
    (task_status decode0 (.present (.pyList [])) ([] : Store) "t").1
      = .error "Task result format invalid." ∧
    ((task_status decode0 (.present (.pyDict [])) ([] : Store) "t").1.isCompleted
      = true) :=
  ⟨(c6_completed_iff_dict decode0 (.pyList []) ([] : Store) "t").2.2
      (.pyList []) rfl rfl,
   (c6_completed_iff_dict decode0 (.pyDict []) ([] : Store) "t").1.mpr
      ⟨.pyDict [], rfl, rfl⟩⟩

/-- Claim C7: every input whose stripped payload is empty or fails QASM3
parsing is rejected synchronously with a 400 client error, before any
effect: the submission is not accepted, its effect trace is empty (no
existence marker written, no unit of work enqueued), and the rejection is
one of the two 400 errors. -/
theorem c7_invalid_submit_no_effects (cfg : Settings)
    (parse : String → Option String) (genBits msgBits : Nat) (qc : String)
    (h : (pyStrip qc).data.isEmpty = true ∨ parse (pyStrip qc) = none) :
    submitAccepted (submit_task cfg parse genBits msgBits qc) = false ∧
    submitEffects (submit_task cfg parse genBits msgBits qc) = [] ∧
    (∃ e, submit_task cfg parse genBits msgBits qc = .error e ∧
      SubmitError.statusCode e = 400) := by
  have hsplit : submit_task cfg parse genBits msgBits qc = .error .emptyQasm ∨
      submit_task cfg parse genBits msgBits qc = .error .invalidQasm := by
    unfold submit_task
    rcases h with h | h
    · left
      rw [if_pos h]
    · by_cases he : (pyStrip qc).data.isEmpty
      · left
        rw [if_pos he]
      · right
        rw [if_neg he, h]
  rcases hsplit with h1 | h1 <;> rw [h1]
  · exact ⟨rfl, rfl, .emptyQasm, rfl, rfl⟩
  · exact ⟨rfl, rfl, .invalidQasm, rfl, rfl⟩

/-- Claim C7 witness: a whitespace-only submission is rejected with no
effects. -/
theorem c7_invalid_submit_no_effects_witness :
    submitAccepted (submit_task cfg0 parseId 0 0 "   ") = false ∧
    submitEffects (submit_task cfg0 parseId 0 0 "   ") = [] :=
  ⟨(c7_invalid_submit_no_effects cfg0 parseId 0 0 "   "
      (Or.inl (by decide))).1,
   (c7_invalid_submit_no_effects cfg0 parseId 0 0 "   "
      (Or.inl (by decide))).2.1⟩

/-- Claim C8: every exception during result retrieval other than
`ResultMissing` and `ResultTimeout` produces the structured
`error (str e)` status response — never a propagated exception — and leaves
the store, in particular the existence marker, unchanged. -/
theorem c8_other_error_structured (decode : List Nat → Option PyVal)
    (store : Store) (tid m : String) :
    task_status decode (.otherError m) store tid = (.error m, store) ∧
    storeGet (task_status decode (.otherError m) store tid).2
        (submittedKey tid)
      = storeGet store (submittedKey tid) :=
  ⟨rfl, rfl⟩

/-- Claim C9: every accepted submission writes exactly one existence marker,
whose TTL is the product of the retry count and the per-attempt time limit
taken from the same configuration values the worker actor is declared with
(`qasm3_actorOptions`), not hardcoded. -/
theorem c9_marker_ttl_from_config (cfg : Settings)
    (parse : String → Option String) (genBits msgBits : Nat) (qc : String)
    (r : SubmitOk) (h : submit_task cfg parse genBits msgBits qc = .ok r) :
    markerEvents r.events = [(submittedKey (uuidCanonical msgBits), [49],
      (qasm3_actorOptions cfg).maxRetries
        * (qasm3_actorOptions cfg).timeLimitMs)] ∧
    (qasm3_actorOptions cfg).timeLimitMs = cfg.qcTaskTimeLimitMs ∧
    (qasm3_actorOptions cfg).maxRetries = cfg.qcTaskMaxRetries := by
  obtain ⟨dumped, hp, rfl⟩ := submit_task_ok_shape h
  refine ⟨?_, rfl, rfl⟩
  simp [markerEvents, qasm3_actorOptions, Nat.mul_comm]

/-- Claim C9 witness: the marker TTL at a concrete accepted submission. -/
theorem c9_marker_ttl_from_config_witness :
    markerEvents submitOk0.events = [(submittedKey (uuidCanonical 0), [49],
      (qasm3_actorOptions cfg0).maxRetries
        * (qasm3_actorOptions cfg0).timeLimitMs)] :=
  (c9_marker_ttl_from_config cfg0 parseId 0 0 qc0 submitOk0 rfl).1

/-- Claim C10: for every accepted submission, the task id returned to the
client and the key of the written existence marker are both the broker
message id, while the `task_id` argument carried inside the enqueued message
is the separately generated `new_task_id` value, which differs from the
broker message id (32-character hex versus 36-character dashed UUID); the
worker actor builds its delete key from that `task_id` argument. -/
theorem c10_broker_id_vs_generated_id (cfg : Settings)
    (parse : String → Option String) (genBits msgBits : Nat) (qc : String)
    (r : SubmitOk) (h : submit_task cfg parse genBits msgBits qc = .ok r) :
    r.taskIdResponse = uuidCanonical msgBits ∧
    (markerEvents r.events).map (fun me => me.1)
      = [submittedKey (uuidCanonical msgBits)] ∧
    (enqueuedMessages r.events).map QMessage.messageId
      = [uuidCanonical msgBits] ∧
    (enqueuedMessages r.events).map QMessage.taskIdArg
      = [new_task_id genBits] ∧
    new_task_id genBits ≠ uuidCanonical msgBits ∧
    (∀ m ∈ enqueuedMessages r.events,
      ∀ (execute : String → Nat → Option (List (String × Nat)))
        (shots : Nat) (evs : List WorkerEvent) (counts : List (String × Nat)),
      qasm3_task execute m.taskIdArg m.qasmArg shots = .ok evs counts →
        evs = [.deleteKey (submittedKey (new_task_id genBits))]) := by
  obtain ⟨dumped, hp, rfl⟩ := submit_task_ok_shape h
  refine ⟨rfl, rfl, rfl, rfl,
    new_task_id_ne_uuidCanonical genBits msgBits, ?_⟩
  intro m hm execute shots evs counts hq
  have hm1 : m = { messageId := uuidCanonical msgBits,
                   taskIdArg := new_task_id genBits, qasmArg := dumped } :=
    List.mem_singleton.mp hm
  subst hm1
  exact (qasm3_task_ok_shape hq).2

/-- Claim C10 witness: the id separation at a concrete accepted
submission. -/
theorem c10_broker_id_vs_generated_id_witness :
    submitOk1.taskIdResponse = uuidCanonical 7 ∧
    (enqueuedMessages submitOk1.events).map QMessage.taskIdArg
      = [new_task_id 5] ∧
    new_task_id 5 ≠ uuidCanonical 7 :=
  ⟨(c10_broker_id_vs_generated_id cfg0 parseId 5 7 qc0 submitOk1 rfl).1,
   (c10_broker_id_vs_generated_id cfg0 parseId 5 7 qc0 submitOk1 rfl).2.2.2.1,
   (c10_broker_id_vs_generated_id cfg0 parseId 5 7 qc0 submitOk1
      rfl).2.2.2.2.1⟩
